import Mathlib

/-!
Shallow embedding of the lead admission/lifecycle engine of the fing-a-job
repository: the compensation normalizer (salary_parser.py), the outreach
scheduler (sender_agent.py), the follow-up cadence planner
(automation_manager.py) and the datastore repair pass (maintenance_tool.py),
together with theorems settling the specification claims about them.

Machine floats of the source are modelled as exact rationals; spreadsheet
cells are modelled as strings, as the source reads and writes them.
-/

/-! ## Generic character and string helpers (Python string methods) -/

/-- Characters the regex class backslash-w matches on ASCII input (used for
word boundaries). -/
def isWordChar (c : Char) : Bool := c.isAlphanum || c = '_'

/-- ASCII letters, the class A to Z with IGNORECASE. -/
def isAsciiLetter (c : Char) : Bool := c.isAlpha

/-- Whitespace of the regex class backslash-s. -/
def isRegexSpace (c : Char) : Bool :=
  c = ' ' || c = '\t' || c = '\n' || c = '\r' || c = '\x0b' || c = '\x0c'

/-- Python str.strip on a character list. -/
def stripChars (l : List Char) : List Char :=
  ((l.dropWhile Char.isWhitespace).reverse.dropWhile Char.isWhitespace).reverse

/-- Python str.strip. -/
def pyStrip (s : String) : String := ⟨stripChars s.data⟩

/-- Python str.upper (ASCII). -/
def pyUpper (s : String) : String := ⟨s.data.map Char.toUpper⟩

/-- Python str.lower (ASCII). -/
def pyLower (s : String) : String := ⟨s.data.map Char.toLower⟩

/-- Python str.isdigit (ASCII digits). -/
def pyIsDigit (s : String) : Bool := !s.data.isEmpty && s.data.all Char.isDigit

/-- Value of a list of decimal digit characters. -/
def digitsToNat (l : List Char) : Nat := l.foldl (fun a c => a * 10 + (c.toNat - 48)) 0

/-- Python int(str): strip, optional sign, at least one digit; none on failure. -/
def pyToIntOpt (s : String) : Option Int :=
  match stripChars s.data with
  | [] => none
  | '+' :: rest =>
      if !rest.isEmpty && rest.all Char.isDigit then some (digitsToNat rest) else none
  | '-' :: rest =>
      if !rest.isEmpty && rest.all Char.isDigit then some (-(digitsToNat rest : Int)) else none
  | l => if l.all Char.isDigit then some (digitsToNat l) else none

/-- Decimal rendering of an integer, as Python str(int). -/
def pyIntToStr (k : Int) : String :=
  if k < 0 then ⟨'-' :: Nat.toDigits 10 k.natAbs⟩ else ⟨Nat.toDigits 10 k.natAbs⟩

/-! ## Minimal regex machinery

The currency, unit and qualifier regexes of salary_parser.py are fixed
alternations of literal words with word boundaries, optional whitespace and
one-letter lookarounds.  Each alternative is embedded as a matcher that is
tried at every position of the (already lowercased) text, which is exactly
what re.search does for these patterns. -/

/-- Match a literal at the head of the text, returning the rest. -/
def litAt : List Char → List Char → Option (List Char)
  | [], s => some s
  | _ :: _, [] => none
  | p :: ps, c :: cs => if c = p then litAt ps cs else none

/-- Consume backslash-s star (greedy; safe because every following literal
starts with a non-space character). -/
def dropWs (s : List Char) : List Char := s.dropWhile isRegexSpace

/-- Consume backslash-s plus: at least one space character. -/
def wsPlus (s : List Char) : Option (List Char) :=
  match s with
  | c :: _ => if isRegexSpace c then some (dropWs s) else none
  | [] => none

/-- Word boundary before the current position, given the previous character. -/
def boundaryBefore (prev : Option Char) : Bool :=
  match prev with
  | none => true
  | some c => !isWordChar c

/-- Word boundary between a just-matched word character and the rest. -/
def boundaryAfterAt (s : List Char) : Bool :=
  match s with
  | [] => true
  | c :: _ => !isWordChar c

/-- Try a position matcher at every position of the text. -/
def scanFrom (p : Option Char → List Char → Bool) : Option Char → List Char → Bool
  | _, [] => false
  | prev, c :: cs => p prev (c :: cs) || scanFrom p (some c) cs

/-- re.search of a single position matcher. -/
def regexSearch (p : Option Char → List Char → Bool) (s : List Char) : Bool :=
  scanFrom p none s

/-- Matcher for a word between two word boundaries (the word starts and ends
with word characters, so the boundaries amount to non-word neighbours). -/
def wordAt (w : List Char) (prev : Option Char) (s : List Char) : Bool :=
  boundaryBefore prev &&
    match litAt w s with
    | some rest => boundaryAfterAt rest
    | none => false

/-- Search for a whole word. -/
def hasWord (w : String) (s : List Char) : Bool := regexSearch (wordAt w.data) s

/-- Matcher for literal a, optional whitespace, literal b, no boundaries
(the shape of per-whitespace-hour and slash-whitespace-hour alternatives). -/
def litWsLitAt (a b : String) (_prev : Option Char) (s : List Char) : Bool :=
  match litAt a.data s with
  | some r => (litAt b.data (dropWs r)).isSome
  | none => false

/-- Matcher for a slash, optional whitespace, a word ending at a boundary
(the shape of slash-whitespace-hr-boundary). -/
def slashWsWordAt (b : String) (_prev : Option Char) (s : List Char) : Bool :=
  match litAt ['/'] s with
  | some r =>
      match litAt b.data (dropWs r) with
      | some r2 => boundaryAfterAt r2
      | none => false
  | none => false

/-- Matcher for boundary, word a, optional whitespace, word b, boundary
(the shape of at-least and up-to). -/
def wordWsWordAt (a b : String) (prev : Option Char) (s : List Char) : Bool :=
  boundaryBefore prev &&
    match litAt a.data s with
    | some r =>
        match litAt b.data (dropWs r) with
        | some r2 => boundaryAfterAt r2
        | none => false
    | none => false

/-! ## salary_parser.py -/

/-- HOURS_PER_MONTH = 40 * 4.33 (4.33 written as the exact rational 433/100). -/
def HOURS_PER_MONTH : ℚ := 40 * (433 / 100)

/-- WEEKS_PER_MONTH = 4.33. -/
def WEEKS_PER_MONTH : ℚ := 433 / 100

/-- Matcher for the philippine-whitespace-peso alternative of the PHP
currency pattern. -/
def philippinePesoAt (prev : Option Char) (s : List Char) : Bool :=
  boundaryBefore prev &&
    match litAt "philippine".data s with
    | some r1 =>
        match wsPlus r1 with
        | some r2 =>
            match litAt "peso".data r2 with
            | some r3 => boundaryAfterAt r3
            | none => false
        | none => false
    | none => false

/-- CURRENCY_PATTERNS php, searched on lowercased text. -/
def php_search (s : List Char) : Bool :=
  hasWord "php" s || s.contains '₱' || hasWord "peso" s || hasWord "pesos" s ||
    regexSearch philippinePesoAt s

/-- Matcher for the usd token with no ASCII letter on either side
(digits and commas allowed, as in 3000USD). -/
def usdTokenAt (prev : Option Char) (s : List Char) : Bool :=
  (match prev with
   | none => true
   | some c => !isAsciiLetter c) &&
    match litAt "usd".data s with
    | some r =>
        match r with
        | [] => true
        | c :: _ => !isAsciiLetter c
    | none => false

/-- Matcher for boundary-us-dollar-sign-boundary; the trailing boundary after
the non-word dollar sign requires a following word character. -/
def usDollarAt (prev : Option Char) (s : List Char) : Bool :=
  boundaryBefore prev &&
    match litAt "us$".data s with
    | some r =>
        match r with
        | c :: _ => isWordChar c
        | [] => false
    | none => false

/-- CURRENCY_PATTERNS usd, searched on lowercased text; the dollar-sign
alternative reduces to containing a dollar sign. -/
def usd_search (s : List Char) : Bool :=
  s.contains '$' || regexSearch usdTokenAt s || hasWord "u.s.d" s ||
    regexSearch usDollarAt s || hasWord "dollar" s || hasWord "dollars" s

/-- detect_currency: explicit PHP markers first, then USD, else unknown. -/
def detect_currency (text : String) : String :=
  if text = "" then "unknown"
  else
    let low := (pyLower text).data
    if php_search low then "php"
    else if usd_search low then "usd"
    else "unknown"

/-- UNIT_PATTERNS hour. -/
def hour_search (s : List Char) : Bool :=
  regexSearch (litWsLitAt "per" "hour") s || regexSearch (litWsLitAt "/" "hour") s ||
    hasWord "hourly" s || regexSearch (slashWsWordAt "hr") s || hasWord "hr" s

/-- UNIT_PATTERNS week. -/
def week_search (s : List Char) : Bool :=
  regexSearch (litWsLitAt "per" "week") s || regexSearch (litWsLitAt "/" "week") s ||
    hasWord "weekly" s || regexSearch (slashWsWordAt "wk") s || hasWord "wk" s ||
    hasWord "week" s

/-- UNIT_PATTERNS month. -/
def month_search (s : List Char) : Bool :=
  regexSearch (litWsLitAt "per" "month") s || regexSearch (litWsLitAt "/" "month") s ||
    hasWord "monthly" s || regexSearch (slashWsWordAt "mo") s || hasWord "mo" s ||
    hasWord "month" s

/-- UNIT_PATTERNS year. -/
def year_search (s : List Char) : Bool :=
  regexSearch (litWsLitAt "per" "year") s || regexSearch (litWsLitAt "/" "year") s ||
    hasWord "yearly" s || hasWord "annual" s || hasWord "annually" s || hasWord "year" s

/-- detect_unit: patterns tried in dictionary order hour, week, month, year. -/
def detect_unit (text : String) : String :=
  if text = "" then "unknown"
  else
    let low := (pyLower text).data
    if hour_search low then "hour"
    else if week_search low then "week"
    else if month_search low then "month"
    else if year_search low then "year"
    else "unknown"

/-- OVER_PATTERN search (lower-bound qualifiers). -/
def over_search (s : List Char) : Bool :=
  hasWord "over" s || regexSearch (wordWsWordAt "at" "least") s || hasWord "from" s ||
    hasWord "minimum" s || hasWord "min" s

/-- Matcher for boundary-no-space-more-space-than-boundary. -/
def noMoreThanAt (prev : Option Char) (s : List Char) : Bool :=
  boundaryBefore prev &&
    match litAt "no".data s with
    | some r1 =>
        match wsPlus r1 with
        | some r2 =>
            match litAt "more".data r2 with
            | some r3 =>
                match wsPlus r3 with
                | some r4 =>
                    match litAt "than".data r4 with
                    | some r5 => boundaryAfterAt r5
                    | none => false
                | none => false
            | none => false
        | none => false
    | none => false

/-- UPTO_PATTERN search (upper-bound qualifiers). -/
def upto_search (s : List Char) : Bool :=
  regexSearch (wordWsWordAt "up" "to") s || hasWord "upto" s || hasWord "maximum" s ||
    hasWord "max" s || regexSearch noMoreThanAt s

/-- Characters kept by normalize_for_numbers (digit, comma, dot); everything
else becomes a separator. -/
def keepNumChar (c : Char) : Bool := c.isDigit || c = ',' || c = '.'

/-- Accumulating splitter for numTokens. -/
def numTokensGo (acc : List Char) : List Char → List (List Char)
  | [] => if acc.isEmpty then [] else [acc.reverse]
  | c :: cs =>
      if keepNumChar c then numTokensGo (c :: acc) cs
      else if acc.isEmpty then numTokensGo [] cs
      else acc.reverse :: numTokensGo [] cs

/-- Composition of normalize_for_numbers and the split: the maximal runs of
digit, comma and dot characters, in order. -/
def numTokens (s : List Char) : List (List Char) := numTokensGo [] s

/-- is_valid_number_token: at least one digit, at most one dot, and the token
with commas and dots removed is a digit string. -/
def is_valid_number_token (t : List Char) : Bool :=
  !t.isEmpty && t.any Char.isDigit && t.count '.' ≤ 1 &&
    (let stripped := t.filter (fun c => !(c = ',' || c = '.'))
     !stripped.isEmpty && stripped.all Char.isDigit)

/-- Parse a validated numeric token: commas removed, digits before the dot
are the integer part, digits after it the fractional part.  The float call
of the source cannot fail after validation. -/
def parseNumToken (t : List Char) : ℚ :=
  let noCommas := t.filter (fun c => c != ',')
  let intPart := noCommas.takeWhile (fun c => c != '.')
  let fracPart := (noCommas.dropWhile (fun c => c != '.')).drop 1
  (digitsToNat intPart : ℚ) + (digitsToNat fracPart : ℚ) / (10 : ℚ) ^ fracPart.length

/-- extract_numbers: parse up to maxNumbers valid tokens, in order. -/
def extract_numbers (text : String) (maxNumbers : Nat) : List ℚ :=
  (((numTokens text.data).filter is_valid_number_token).map parseNumToken).take maxNumbers

/-- Facts extracted from a salary string (the SalaryFacts dataclass). -/
structure SalaryFacts where
  currency : String
  unit : String
  low_raw : Option ℚ
  high_raw : Option ℚ
  low_monthly : Option ℚ
  high_monthly : Option ℚ
  has_over : Bool
  has_upto : Bool
  raw : String
deriving DecidableEq, Repr

/-- convert_to_monthly. -/
def convert_to_monthly (value : Option ℚ) (unit : String) : Option ℚ :=
  match value with
  | none => none
  | some v =>
      if unit = "hour" then some (v * HOURS_PER_MONTH)
      else if unit = "week" then some (v * WEEKS_PER_MONTH)
      else if unit = "year" then some (v / 12)
      else if unit = "month" then some v
      else none

/-- representative_value: prefer low if it exists, else high. -/
def representative_value (low_raw high_raw : Option ℚ) : Option ℚ :=
  match low_raw with
  | some v => some v
  | none => high_raw

/-- infer_unknown_currency_and_unit: magnitude-based inference when the
currency is unknown. -/
def infer_unknown_currency_and_unit (currency unit : String)
    (low_raw high_raw : Option ℚ) : String × String :=
  if currency ≠ "unknown" then (currency, unit)
  else
    match representative_value low_raw high_raw with
    | none => (currency, unit)
    | some v =>
        if 15000 ≤ v ∧ v ≤ 100000 then ("php", if unit = "unknown" then "month" else unit)
        else if v < 100 then ("usd", if unit = "unknown" then "hour" else unit)
        else if 100 ≤ v ∧ v < 400 then ("usd", if unit = "unknown" then "week" else unit)
        else if 400 ≤ v ∧ v ≤ 4000 then ("usd", if unit = "unknown" then "month" else unit)
        else (currency, unit)

/-- Numeric bounds of build_salary_facts: the extracted numbers combined with
the over and up-to qualifiers. -/
def salary_bounds (text : String) : Option ℚ × Option ℚ :=
  let has_over := over_search (pyLower text).data
  let has_upto := upto_search (pyLower text).data
  match extract_numbers text 2 with
  | [] => (none, none)
  | [v] =>
      if has_over then (some v, none)
      else if has_upto then (none, some v)
      else (some v, some v)
  | v1 :: v2 :: _ => (some (min v1 v2), some (max v1 v2))

/-- build_salary_facts: full pipeline including unknown-currency inference
and monthly conversion. -/
def build_salary_facts (raw : String) : SalaryFacts :=
  let text := raw
  let currency0 := detect_currency text
  let unit0 := detect_unit text
  let has_over := over_search (pyLower text).data
  let has_upto := upto_search (pyLower text).data
  let bounds := salary_bounds text
  let cu := infer_unknown_currency_and_unit currency0 unit0 bounds.1 bounds.2
  { currency := cu.1
    unit := cu.2
    low_raw := bounds.1
    high_raw := bounds.2
    low_monthly := convert_to_monthly bounds.1 cu.2
    high_monthly := convert_to_monthly bounds.2 cu.2
    has_over := has_over
    has_upto := has_upto
    raw := raw }

/-- Lower bound strictly below the threshold (first comparison of
is_salary_too_low). -/
def belowLowBound (lo : Option ℚ) (min_required : ℚ) : Bool :=
  match lo with
  | some v => decide (v < min_required)
  | none => false

/-- Upper bound strictly below the threshold when only an upper bound exists
(second comparison of is_salary_too_low). -/
def belowUpperOnly (lo hi : Option ℚ) (min_required : ℚ) : Bool :=
  match lo, hi with
  | none, some v => decide (v < min_required)
  | _, _ => false

/-- is_salary_too_low: unknown currency is rejected outright; no monthly
figure falls back to the unknown policy; otherwise the monthly lower bound
(or the upper bound when only it exists) is compared to the currency
threshold. -/
def is_salary_too_low (raw : String) (min_monthly_usd min_monthly_php : ℚ)
    (unknown_policy : String) : Bool :=
  let facts := build_salary_facts raw
  if ¬(facts.currency = "usd" ∨ facts.currency = "php") then true
  else if facts.low_monthly = none ∧ facts.high_monthly = none then
    decide (unknown_policy = "skip")
  else
    let min_required := if facts.currency = "usd" then min_monthly_usd else min_monthly_php
    if belowLowBound facts.low_monthly min_required then true
    else if belowUpperOnly facts.low_monthly facts.high_monthly min_required then true
    else false

/-! ## utils.py -/

/-- Local-part characters of the email regex class. -/
def isLocalChar (c : Char) : Bool :=
  c.isAlpha || c.isDigit || c = '.' || c = '_' || c = '%' || c = '+' || c = '-'

/-- Domain characters of the email regex class. -/
def isDomainChar (c : Char) : Bool := c.isAlpha || c.isDigit || c = '.' || c = '-'

/-- Dots of the domain run that can serve as the final dot before the
top-level-domain letters: index at least one, at least two letters follow. -/
def domDotCandidates (dom : List Char) : List Nat :=
  (List.range dom.length).filter
    (fun i => decide (1 ≤ i) && decide (dom.get? i = some '.') &&
      decide (2 ≤ ((dom.drop (i + 1)).takeWhile isAsciiLetter).length))

/-- Split the maximal domain-character run the way the backtracking regex
does: at the last candidate dot, the top-level domain being the maximal
letter run after it. -/
def domSplit (dom : List Char) : Option (List Char × List Char) :=
  match (domDotCandidates dom).getLast? with
  | some i => some (dom.take i, (dom.drop (i + 1)).takeWhile isAsciiLetter)
  | none => none

/-- Attempt the email regex at one position: maximal local run, an at sign,
then a domain matching the dot-top-level-domain requirement. -/
def emailAt (s : List Char) : Option (List Char) :=
  let loc := s.takeWhile isLocalChar
  let rest1 := s.dropWhile isLocalChar
  if loc.isEmpty then none
  else
    match rest1 with
    | '@' :: rest2 =>
        let dom := rest2.takeWhile isDomainChar
        match domSplit dom with
        | some (a, tld) => some (loc ++ '@' :: a ++ '.' :: tld)
        | none => none
    | _ => none

/-- Leftmost email match over all positions. -/
def extractEmailList : List Char → Option (List Char)
  | [] => none
  | c :: cs =>
      match emailAt (c :: cs) with
      | some m => some m
      | none => extractEmailList cs

/-- extract_email of utils.py: first match of the email regex, else the
empty string. -/
def extract_email (text : String) : String :=
  match extractEmailList text.data with
  | some m => ⟨m⟩
  | none => ""

/-- Day count of a civil date (standard days-from-civil algorithm); only
differences of values matter for the embedding. -/
def daysFromCivil (y m d : Int) : Int :=
  let y' := if m ≤ 2 then y - 1 else y
  let era := (if 0 ≤ y' then y' else y' - 399) / 400
  let yoe := y' - era * 400
  let mp := (m + 9) % 12
  let doy := (153 * mp + 2) / 5 + d - 1
  let doe := yoe * 365 + yoe / 4 - yoe / 100 + doy
  era * 146097 + doe - 719468

/-- Number of days in a month (for strptime validation). -/
def daysInMonth (y m : Int) : Int :=
  if m = 2 then
    if y % 4 = 0 ∧ (y % 100 ≠ 0 ∨ y % 400 = 0) then 29 else 28
  else if m = 4 ∨ m = 6 ∨ m = 9 ∨ m = 11 then 30
  else 31

/-- Parse a dash-separated year-month-day date as strptime does, validating
the calendar ranges. -/
def parseDate (s : List Char) : Option (Int × Int × Int) :=
  match (⟨s⟩ : String).split (fun c => c = '-') with
  | [ys, ms, ds] =>
      if !ys.data.isEmpty && ys.data.all Char.isDigit &&
         !ms.data.isEmpty && ms.data.all Char.isDigit &&
         !ds.data.isEmpty && ds.data.all Char.isDigit then
        let y : Int := digitsToNat ys.data
        let m : Int := digitsToNat ms.data
        let d : Int := digitsToNat ds.data
        if 1 ≤ m ∧ m ≤ 12 ∧ 1 ≤ d ∧ d ≤ daysInMonth y m then some (y, m, d) else none
      else none
  | _ => none

/-- get_days_diff of utils.py, with the current time given as a civil day
count: empty or unparseable date gives 999, else the whole days elapsed,
which for a midnight-based date is the difference of civil day counts. -/
def get_days_diff (todayCivil : Int) (date_str : String) : Int :=
  if date_str = "" then 999
  else
    let clean := (date_str.data.takeWhile (fun c => c != 'T')).takeWhile (fun c => c != ' ')
    match parseDate clean with
    | some (y, m, d) => todayCivil - daysFromCivil y m d
    | none => 999

/-! ## The lead record

One row of the shared store, with the columns the engine reads and writes.
All cells are strings, as the sheet stores them. -/

structure Row where
  jobTitle : String
  contactInfo : String
  description : String
  status : String
  notes : String
  sendMode : String
  sendStatus : String
  sendAttempts : String
  lastError : String
  lastSentAt : String
  followupCount : String
  draftEmail : String
  emailSubject : String
deriving DecidableEq, Repr

/-! ## sender_agent.py -/

/-- default_subject_from_row. -/
def default_subject_from_row (row : Row) : String :=
  let title := pyStrip row.jobTitle
  if title ≠ "" then "Quick question about your " ++ title ++ " role"
  else "Quick question about your hiring needs"

/-- resolve_body: the stripped precomputed draft (the Draft Email column),
empty when missing. -/
def resolve_body (row : Row) : String := pyStrip row.draftEmail

/-- Retry loop of run_sender_agent: up to maxRetries attempts, the transport
oracle giving none on success and the error text on failure.  Returns the
final attempt counter, whether a send succeeded, and the last error. -/
def attemptLoop (transport : Nat → Option String) : Nat → Nat → Nat → String →
    Nat × Bool × String
  | 0, _, attempts, lastErr => (attempts, false, lastErr)
  | Nat.succ fuel, idx, attempts, lastErr =>
      match transport idx with
      | none => (attempts + 1, true, lastErr)
      | some e => attemptLoop transport fuel (idx + 1) (attempts + 1) e

/-- Result of processing one row in run_sender_agent: the in-memory row, and
whether it was appended to the write batch, whether a successful send was
counted, and whether the global send limit stopped the scan. -/
structure SenderStep where
  row : Row
  written : Bool
  sent : Bool
  stopped : Bool
deriving DecidableEq, Repr

/-- Body of the per-row loop of run_sender_agent.  The transport oracle
models the mock or SMTP send of one attempt; limitReached models the
sent_count against SEND_LIMIT comparison at this row. -/
def sender_step (mode : String) (verifyOnly : Bool) (maxRetries : Nat)
    (limitReached : Bool) (transport : Nat → Option String) (now : String)
    (row : Row) : SenderStep :=
  let send_status := pyUpper (pyStrip row.sendStatus)
  if (send_status = "SENT" ∨ send_status = "SKIPPED" ∨ send_status = "MANUAL_CHECK" ∨
      send_status = "PENDING") ∧ ¬(send_status = "PENDING" ∧ mode = "REAL") then
    ⟨row, false, false, false⟩
  else
    let crm_status := pyLower (pyStrip row.status)
    if ¬(crm_status = "" ∨ crm_status = "new") then
      ⟨{ row with sendStatus := "SKIPPED",
                  lastError := "Skipped due to Status: " ++ crm_status },
        !verifyOnly, false, false⟩
    else if !verifyOnly && limitReached then
      ⟨row, false, false, true⟩
    else
      let contact_raw := pyStrip row.contactInfo
      let to_email := extract_email contact_raw
      if to_email = "" then
        let is_empty := contact_raw = "" ∨ pyLower contact_raw = "none"
        if verifyOnly then ⟨row, false, false, false⟩
        else if is_empty then
          ⟨{ row with sendStatus := "SKIPPED", lastError := "No contact info found" },
            true, false, false⟩
        else
          ⟨{ row with sendStatus := "MANUAL_CHECK", lastError := "Non-email contact found" },
            true, false, false⟩
      else
        let body := resolve_body row
        if body = "" then
          if verifyOnly then ⟨row, false, false, false⟩
          else
            ⟨{ row with sendMode := mode, sendStatus := "FAILED",
                        lastError := "Missing Draft Email" },
              true, false, false⟩
        else if verifyOnly then ⟨row, false, false, false⟩
        else if mode = "DRYRUN" then
          ⟨{ row with sendMode := mode, sendStatus := "PENDING", lastError := "" },
            true, false, false⟩
        else
          let attempts0 := if pyIsDigit (pyStrip row.sendAttempts) then
            (digitsToNat (pyStrip row.sendAttempts).data) else 0
          let res := attemptLoop transport maxRetries 0 attempts0 ""
          let rowA := { row with sendMode := mode, sendAttempts := pyIntToStr res.1 }
          if res.2.1 then
            ⟨{ rowA with sendStatus := "SENT", lastError := "", lastSentAt := now },
              true, true, false⟩
          else
            ⟨{ rowA with sendStatus := "FAILED", lastError := res.2.2 },
              true, false, false⟩

/-- The row as persisted after the batch write: the mutated row when it was
appended to the batch, the untouched stored row otherwise. -/
def sender_persist (mode : String) (verifyOnly : Bool) (maxRetries : Nat)
    (limitReached : Bool) (transport : Nat → Option String) (now : String)
    (row : Row) : Row :=
  let st := sender_step mode verifyOnly maxRetries limitReached transport now row
  if st.written then st.row else row

/-! ## automation_manager.py -/

/-- MAX_FOLLOWUPS: total emails = initial plus four follow-ups. -/
def MAX_FOLLOWUPS : Int := 5

/-- WAIT_SCHEDULE.get(count, 7): days to wait before the next email, keyed
by the current followup count, defaulting to 7. -/
def WAIT_SCHEDULE (count : Int) : Int :=
  if count = 1 then 2
  else if count = 2 then 5
  else if count = 3 then 7
  else if count = 4 then 9
  else 7

/-- TEMPLATES: subject and body per next stage (2 to 5). -/
def TEMPLATES (stage : Int) : Option (String × String) :=
  if stage = 2 then
    some ("Your {job} hire made simple",
      "Hi {name},\n\nJust checking in! We specialize in experienced Filipino VAs who integrate smoothly and deliver results you can rely on—without the high cost of full-time local hires.\n\nWould you like a quick chat to see if we can help with your {job} role?\n\nBest regards,\nAlon")
  else if stage = 3 then
    some ("Proven VA support for {job}",
      "Hi {name},\n\nCompanies in your industry are hiring Filipino VAs with strong domain expertise and seeing reliable results at a fraction of the cost.\n\nI can show you how we tailor VAs specifically for your {job} role and co-manage them to ensure smooth performance.\n\nWould you like a 10–15 minute chat?\n\nBest regards,\nAlon")
  else if stage = 4 then
    some ("Still looking for a {job} VA?",
      "Hi {name},\n\nJust checking if you’re still hiring for {job}. We help companies secure skilled, affordable Filipino VAs with proven experience in their field, fully managed for reliability.\n\nEven a short call can show how we can make this easy for you.\n\nThanks,\nAlon")
  else if stage = 5 then
    some ("Closing the loop on {job}",
      "Hi {name},\n\nSince I haven\x27t heard back, I assume you’ve likely filled the {job} position or put it on hold.\n\nI won’t fill up your inbox any further, but please keep us in mind if you ever need a hand finding top-tier Filipino VAs in the future—fully managed and reliable.\n\nAll the best,\nAlon")
  else none

/-- Fuelled replace-all of a nonempty literal pattern (str.format field
substitution; replacement text is not rescanned for the same field). -/
def replaceAllFuel (pat rep : List Char) : Nat → List Char → List Char
  | 0, s => s
  | _ + 1, [] => []
  | fuel + 1, c :: cs =>
      match litAt pat (c :: cs) with
      | some rest => rep ++ replaceAllFuel pat rep fuel rest
      | none => c :: replaceAllFuel pat rep fuel cs

/-- str.format with fields name and job, as the templates use. -/
def renderTemplate (t : String) (name job : String) : String :=
  let s1 := replaceAllFuel "{name}".data name.data t.data.length t.data
  ⟨replaceAllFuel "{job}".data job.data s1.length s1⟩

/-- Followup-count cell as the planner reads it: empty gives 0, int() on
the cell, 0 when the conversion raises. -/
def pyParseCount (s : String) : Int :=
  if s = "" then 0
  else
    match pyToIntOpt s with
    | some k => k
    | none => 0

/-- Result of processing one row in process_daily_automation: the active
row (with any cell updates applied), the row appended to the archive
collection when one was collected, whether the active row was actually
removed (archive execution runs only in REAL mode), the follow-up stage
selected for sending, and whether a real send succeeded. -/
structure AutoResult where
  row : Row
  archivedRow : Option Row
  removedFromActive : Bool
  sendStage : Option Int
  didSend : Bool
deriving Repr

/-- Body of the per-row loop of process_daily_automation, with the current
time given as a civil day count (for day differences) and a timestamp
string (for the Last Sent At cell).  sendOk models whether the SMTP send
raises. -/
def auto_step (mode : String) (todayCivil : Int) (now : String) (sendOk : Bool)
    (row : Row) : AutoResult :=
  let status := pyStrip row.status
  let contact := pyStrip row.contactInfo
  let last_sent := pyStrip row.lastSentAt
  let job_title := if pyStrip row.jobTitle = "" then "your role" else pyStrip row.jobTitle
  let count := pyParseCount row.followupCount
  let email := extract_email contact
  if status = "Follow-up" ∧ count ≥ MAX_FOLLOWUPS ∧
      get_days_diff todayCivil last_sent ≥ 3 then
    ⟨row,
      some { row with status := "Lost",
                      notes := row.notes ++ " | Auto-archived after 5 attempts" },
      mode = "REAL", none, false⟩
  else if status = "Follow-up" ∧ email ≠ "" ∧ count < MAX_FOLLOWUPS then
    let days_since := get_days_diff todayCivil last_sent
    let required_wait_days := WAIT_SCHEDULE count
    if days_since ≥ required_wait_days then
      let next_stage := count + 1
      match TEMPLATES next_stage with
      | none => ⟨row, none, false, none, false⟩
      | some t =>
          let _body := renderTemplate t.2 "there" job_title
          let _subject := renderTemplate t.1 "" job_title
          if mode = "REAL" then
            if sendOk then
              ⟨{ row with lastSentAt := now,
                          followupCount := pyIntToStr next_stage,
                          sendStatus := "SENT_AUTO" },
                none, false, some next_stage, true⟩
            else
              ⟨row, none, false, some next_stage, false⟩
          else
            ⟨row, none, false, some next_stage, false⟩
    else ⟨row, none, false, none, false⟩
  else ⟨row, none, false, none, false⟩

/-! ## maintenance_tool.py -/

/-- Substring containment (the Python in operator on strings). -/
def containsSub (needle : List Char) : List Char → Bool
  | [] => (litAt needle []).isSome
  | c :: cs => (litAt needle (c :: cs)).isSome || containsSub needle cs

/-- Deletion criterion of the maintenance pass: empty or literal none
contact cell. -/
def shouldDelete (row : Row) : Bool :=
  let contact_val := pyStrip row.contactInfo
  contact_val = "" || pyLower contact_val = "none"

/-- Corruption test for the Followup Count cell: longer than five
characters, contains an at sign, contains the greeting prefix, or is not a
digit string. -/
def looksCorrupt (val : String) : Bool :=
  decide (val.length > 5) || containsSub "@".data val.data ||
    containsSub "Hi ".data val.data || !pyIsDigit val

/-- Counter repair: a corrupted Followup Count becomes 1 for advanced CRM
statuses and 0 otherwise. -/
def fixCount (row : Row) : Row :=
  if looksCorrupt row.followupCount then
    { row with followupCount :=
        if row.status = "Follow-up" ∨ row.status = "In Progress" then "1" else "0" }
  else row

/-- Stuck-state reset: a row not in a protected terminal send status that
carries a leftover send mode, error or status has them cleared and its
attempt counter reset. -/
def resetStuck (row : Row) : Row :=
  if row.sendStatus = "SENT" ∨ row.sendStatus = "MANUAL_CHECK" ∨
      row.sendStatus = "SKIPPED" then row
  else if row.sendMode ≠ "" ∨ row.lastError ≠ "" ∨ row.sendStatus ≠ "" then
    { row with sendStatus := "", sendMode := "", lastError := "", sendAttempts := "0" }
  else row

/-- Modelled from the spec: the AI drafting collaborator
(extract_data_with_ai and generate_email_body are imported by
maintenance_tool.py from a revision of the scraper not present here; per
the spec they are an external collaborator returning a contact, a name and
a hook, from which a deterministic template builds the draft body).  The
oracle maps the description and title to the generated draft body, or none
when the call fails and the row is skipped. -/
def AIOracle : Type := String → String → Option String

/-- Backfill enrichment: a row with an empty draft and a long enough
description gets a generated draft and a deterministic subject; failures
leave the row unchanged. -/
def enrich (ai : AIOracle) (row : Row) : Row :=
  if row.draftEmail = "" && decide (row.description.length > 20) then
    match ai row.description row.jobTitle with
    | some new_draft =>
        { row with draftEmail := new_draft,
                   emailSubject := "Quick question about your " ++ row.jobTitle ++ " role" }
    | none => row
  else row

/-- Per-surviving-row pipeline of clean_and_enrich_db: counter repair, then
stuck-state reset, then enrichment. -/
def repairRow (ai : AIOracle) (row : Row) : Row := enrich ai (resetStuck (fixCount row))

/-- clean_and_enrich_db on the store contents: delete rows with unusable
contacts, then repair and enrich the survivors in place. -/
def clean_and_enrich_db (ai : AIOracle) (store : List Row) : List Row :=
  (store.filter (fun r => !shouldDelete r)).map (repairRow ai)

/-! ## Engine operations for cross-run invariants -/

/-- One run-level operation on a single record: a pass of the outreach
scheduler or of the daily planner, with its run parameters. -/
inductive EngineOp where
  | sender (mode : String) (verifyOnly : Bool) (maxRetries : Nat) (limitReached : Bool)
      (transport : Nat → Option String) (now : String)
  | planner (mode : String) (todayCivil : Int) (now : String) (sendOk : Bool)

/-- Effect of one operation on the persisted record. -/
def applyOp (op : EngineOp) (row : Row) : Row :=
  match op with
  | .sender mode vo mr lim tr now => sender_persist mode vo mr lim tr now row
  | .planner mode today now ok => (auto_step mode today now ok row).row

/-- Effect of a sequence of operations, oldest first. -/
def applyOps (ops : List EngineOp) (row : Row) : Row :=
  match ops with
  | [] => row
  | op :: rest => applyOps rest (applyOp op row)

/-- Whether the operation performed a successful send on this record. -/
def opDidSend (op : EngineOp) (row : Row) : Bool :=
  match op with
  | .sender mode vo mr lim tr now => (sender_step mode vo mr lim tr now row).sent
  | .planner mode today now ok => (auto_step mode today now ok row).didSend

/-! ## Concrete records used by witnesses and counterexamples -/

/-- Civil day count of 2025-01-10, the reference day of the planner
scenarios. -/
def jan10_2025 : Int := daysFromCivil 2025 1 10

/-- A fresh admitted lead: CRM status New, usable email, precomputed draft. -/
def newLeadRow : Row :=
  { jobTitle := "Python Developer", contactInfo := "alon@test.com", description := "",
    status := "New", notes := "", sendMode := "", sendStatus := "", sendAttempts := "",
    lastError := "", lastSentAt := "", followupCount := "0",
    draftEmail := "Hi body", emailSubject := "Subject" }

/-- A lead marked PENDING by an earlier dry run. -/
def pendingLeadRow : Row :=
  { jobTitle := "Python Developer", contactInfo := "alon@test.com", description := "",
    status := "New", notes := "", sendMode := "DRYRUN", sendStatus := "PENDING",
    sendAttempts := "", lastError := "", lastSentAt := "", followupCount := "0",
    draftEmail := "Hi body", emailSubject := "Subject" }

/-- A record at the stage ceiling whose cooldown has not yet elapsed:
five messages sent, the last one two days before 2025-01-10. -/
def cooldownRow : Row :=
  { jobTitle := "Dev", contactInfo := "test@client.com", description := "",
    status := "Follow-up", notes := "", sendMode := "", sendStatus := "",
    sendAttempts := "", lastError := "", lastSentAt := "2025-01-08",
    followupCount := "5", draftEmail := "", emailSubject := "" }

/-- A record at the stage ceiling whose cooldown has elapsed: five messages
sent, the last one nine days before 2025-01-10. -/
def archiveReadyRow : Row :=
  { jobTitle := "Dev", contactInfo := "test@client.com", description := "",
    status := "Follow-up", notes := "", sendMode := "", sendStatus := "",
    sendAttempts := "", lastError := "", lastSentAt := "2025-01-01",
    followupCount := "5", draftEmail := "", emailSubject := "" }

/-- A record due for its stage-3 follow-up: two messages sent, the last one
six days before 2025-01-10, wait table entry five days. -/
def cadenceRow : Row :=
  { jobTitle := "Dev", contactInfo := "test@client.com", description := "",
    status := "Follow-up", notes := "", sendMode := "", sendStatus := "",
    sendAttempts := "", lastError := "", lastSentAt := "2025-01-04",
    followupCount := "2", draftEmail := "", emailSubject := "" }

/-- The same shape of record, used by the monotonicity witness. -/
def monotoneRow : Row :=
  { jobTitle := "Ops", contactInfo := "lead@client.com", description := "",
    status := "Follow-up", notes := "", sendMode := "", sendStatus := "",
    sendAttempts := "", lastError := "", lastSentAt := "2025-01-04",
    followupCount := "2", draftEmail := "", emailSubject := "" }

/-- The planner operation of the monotonicity witness: a REAL run on
2025-01-10 whose send succeeds. -/
def monotoneOp : EngineOp := .planner "REAL" jan10_2025 "2025-01-10T08:00:00Z" true

/-- A protected record (send status SENT) with a corrupted followup
counter, as left by a crash that wrote a draft into the counter cell. -/
def corruptSentRow : Row :=
  { jobTitle := "Dev", contactInfo := "a@b.com", description := "",
    status := "", notes := "", sendMode := "", sendStatus := "SENT",
    sendAttempts := "1", lastError := "", lastSentAt := "2025-01-01",
    followupCount := "Hi Alon, a draft @x", draftEmail := "d", emailSubject := "s" }

/-- A healthy protected record: SENT, usable contact, digit counter,
nonempty draft. -/
def healthySentRow : Row :=
  { jobTitle := "Dev", contactInfo := "a@b.com", description := "",
    status := "Follow-up", notes := "", sendMode := "REAL", sendStatus := "SENT",
    sendAttempts := "1", lastError := "", lastSentAt := "2025-01-01",
    followupCount := "1", draftEmail := "d", emailSubject := "s" }

/-! ## Theorems -/

/-- Helper: the first comparison of is_salary_too_low on a present lower
bound. -/
theorem belowLowBound_some (a m : ℚ) : belowLowBound (some a) m = decide (a < m) := rfl

/-- Helper: the first comparison of is_salary_too_low on an absent lower
bound. -/
theorem belowLowBound_none (m : ℚ) : belowLowBound none m = false := rfl

/-- Helper: the second comparison never fires when a lower bound exists. -/
theorem belowUpperOnly_some (a : ℚ) (hi : Option ℚ) (m : ℚ) :
    belowUpperOnly (some a) hi m = false := rfl

/-- Helper: the second comparison on an upper bound only. -/
theorem belowUpperOnly_none_some (a m : ℚ) :
    belowUpperOnly none (some a) m = decide (a < m) := rfl

/-- C1. The claim states that every compensation string containing
negotiable, DOE or TBD is admitted (is_salary_too_low returns false)
regardless of thresholds and policy.  The code has no such special case:
the bare string negotiable yields unknown currency and no numbers, and the
function rejects it (returns true). -/
theorem C1_counterexample :
    is_salary_too_low "negotiable" 900 50000 "keep" = true := by
  with_unfolding_all rfl

/-- C1 (amended): negotiable, DOE and TBD carry no special admission
treatment; each of these strings alone is always rejected
(is_salary_too_low returns true), for every pair of thresholds and every
unknown policy. -/
theorem C1_no_special_tokens (min_monthly_usd min_monthly_php : ℚ)
    (unknown_policy : String) :
    is_salary_too_low "negotiable" min_monthly_usd min_monthly_php unknown_policy = true ∧
    is_salary_too_low "DOE" min_monthly_usd min_monthly_php unknown_policy = true ∧
    is_salary_too_low "TBD" min_monthly_usd min_monthly_php unknown_policy = true := by
  exact ⟨rfl, rfl, rfl⟩

/-- C6. For every compensation string whose currency resolves to usd or
php and for which a monthly figure is computed (the monthly lower bound,
or the monthly upper bound when only an upper bound exists),
is_salary_too_low returns true exactly when that figure is strictly below
the currency-specific threshold, with no buffer or margin. -/
theorem C6_threshold_iff (raw : String) (min_monthly_usd min_monthly_php : ℚ)
    (unknown_policy : String) (x : ℚ)
    (hcur : (build_salary_facts raw).currency = "usd" ∨
      (build_salary_facts raw).currency = "php")
    (hfig : (build_salary_facts raw).low_monthly = some x ∨
      ((build_salary_facts raw).low_monthly = none ∧
        (build_salary_facts raw).high_monthly = some x)) :
    is_salary_too_low raw min_monthly_usd min_monthly_php unknown_policy = true ↔
      x < (if (build_salary_facts raw).currency = "usd" then min_monthly_usd
        else min_monthly_php) := by
  rcases hfig with hlo | ⟨hlo, hhi⟩ <;> rcases hcur with hc | hc <;>
    simp [is_salary_too_low, hc, hlo, belowLowBound_some, belowUpperOnly_some,
      belowLowBound_none, belowUpperOnly_none_some, *]

/-- C6 witness at one thousand dollars per month against a nine hundred
dollar threshold. -/
theorem C6_witness :
    is_salary_too_low "$1000/month" 900 50000 "keep" = true ↔
      (1000 : ℚ) < (if (build_salary_facts "$1000/month").currency = "usd"
        then (900 : ℚ) else 50000) :=
  C6_threshold_iff "$1000/month" 900 50000 "keep" 1000
    (Or.inl (by with_unfolding_all rfl)) (Or.inl (by with_unfolding_all rfl))

/-- C7. The claim states that the unknown-currency inference always sets
the listed units (month, hour, week, month).  The code keeps an already
detected unit and only fills the listed unit in when none was detected:
on the string 25,000 yearly the detected currency is unknown, the
representative value 25000 lies in the PHP band, and the inferred facts
are currency php with unit year, not month. -/
theorem C7_counterexample :
    detect_currency "25,000 yearly" = "unknown" ∧
    representative_value (salary_bounds "25,000 yearly").1
      (salary_bounds "25,000 yearly").2 = some 25000 ∧
    (build_salary_facts "25,000 yearly").currency = "php" ∧
    (build_salary_facts "25,000 yearly").unit = "year" := by
  refine ⟨by with_unfolding_all rfl, by with_unfolding_all rfl,
    by with_unfolding_all rfl, by with_unfolding_all rfl⟩

/-- C7 (amended): when the detected currency is unknown and a
representative value v exists (low bound if present, else high), the
normalizer infers currency php for v in the range 15000 to 100000, usd
for v below 100, in 100 to below 400, and in 400 to 4000, and leaves the
currency unknown otherwise; the listed unit (month, hour, week, month
respectively) is assigned only when no unit was detected, an already
detected unit being kept. -/
theorem C7_inference_amended (raw : String) (v : ℚ)
    (hc : detect_currency raw = "unknown")
    (hv : representative_value (salary_bounds raw).1 (salary_bounds raw).2 = some v) :
    ((build_salary_facts raw).currency, (build_salary_facts raw).unit) =
      (if 15000 ≤ v ∧ v ≤ 100000 then
        ("php", if detect_unit raw = "unknown" then "month" else detect_unit raw)
      else if v < 100 then
        ("usd", if detect_unit raw = "unknown" then "hour" else detect_unit raw)
      else if 100 ≤ v ∧ v < 400 then
        ("usd", if detect_unit raw = "unknown" then "week" else detect_unit raw)
      else if 400 ≤ v ∧ v ≤ 4000 then
        ("usd", if detect_unit raw = "unknown" then "month" else detect_unit raw)
      else ("unknown", detect_unit raw)) := by
  have h1 : (build_salary_facts raw).currency =
      (infer_unknown_currency_and_unit (detect_currency raw) (detect_unit raw)
        (salary_bounds raw).1 (salary_bounds raw).2).1 := rfl
  have h2 : (build_salary_facts raw).unit =
      (infer_unknown_currency_and_unit (detect_currency raw) (detect_unit raw)
        (salary_bounds raw).1 (salary_bounds raw).2).2 := rfl
  rw [h1, h2, Prod.mk.eta, hc]
  unfold infer_unknown_currency_and_unit
  rw [hv]
  simp

/-- C7 witness: a bare peso-range string infers php with unit month. -/
theorem C7_witness :
    ((build_salary_facts "25,000 - 30,000").currency,
      (build_salary_facts "25,000 - 30,000").unit) = ("php", "month") :=
  (C7_inference_amended "25,000 - 30,000" 25000 (by with_unfolding_all rfl)
    (by with_unfolding_all rfl)).trans (by with_unfolding_all rfl)

/-- C2. The claim (and the repository's own sender test) says a successful
initial send sets send_status to SENT, last_sent_at to now, followup_count
to 1 and crm_status to Follow-up.  Evaluating the send path of
run_sender_agent on an eligible record whose send succeeds on the first
attempt shows the code sets only send_status and last_sent_at (and the
attempt counter): the CRM status stays New and the followup count stays 0,
contradicting the claim and the test. -/
theorem C2_success_leaves_crm_and_count :
    (sender_step "REAL" false 2 false (fun _ => none) "2025-01-01T12:00:00"
      newLeadRow).sent = true ∧
    (sender_step "REAL" false 2 false (fun _ => none) "2025-01-01T12:00:00"
      newLeadRow).row.sendStatus = "SENT" ∧
    (sender_step "REAL" false 2 false (fun _ => none) "2025-01-01T12:00:00"
      newLeadRow).row.lastSentAt = "2025-01-01T12:00:00" ∧
    (sender_step "REAL" false 2 false (fun _ => none) "2025-01-01T12:00:00"
      newLeadRow).row.status = "New" ∧
    (sender_step "REAL" false 2 false (fun _ => none) "2025-01-01T12:00:00"
      newLeadRow).row.followupCount = "0" := by
  refine ⟨?_, ?_, ?_, ?_, ?_⟩ <;> with_unfolding_all rfl

/-- C10. A record whose send status is PENDING is left entirely unchanged
(not even written back) by the scheduler when the mode is DRYRUN or MOCK;
and under REAL mode a PENDING record is re-processed: on the concrete
pending lead with a working transport it is sent and marked SENT. -/
theorem C10_pending_skip (mode : String) (verifyOnly : Bool) (maxRetries : Nat)
    (limitReached : Bool) (transport : Nat → Option String) (now : String) (row : Row)
    (hp : pyUpper (pyStrip row.sendStatus) = "PENDING")
    (hm : mode = "DRYRUN" ∨ mode = "MOCK") :
    sender_step mode verifyOnly maxRetries limitReached transport now row =
      ⟨row, false, false, false⟩ ∧
    (sender_step "REAL" false 2 false (fun _ => none) "2025-01-02T00:00:00Z"
      pendingLeadRow).row.sendStatus = "SENT" ∧
    (sender_step "REAL" false 2 false (fun _ => none) "2025-01-02T00:00:00Z"
      pendingLeadRow).sent = true := by
  refine ⟨?_, by with_unfolding_all rfl, by with_unfolding_all rfl⟩
  rcases hm with h | h <;> subst h <;> simp [sender_step, hp]

/-- C10 witness: the pending lead is skipped by a DRYRUN pass and consumed
by a REAL pass. -/
theorem C10_witness :
    sender_step "DRYRUN" false 2 false (fun _ => none) "2025-01-02T00:00:00Z"
      pendingLeadRow = ⟨pendingLeadRow, false, false, false⟩ ∧
    (sender_step "REAL" false 2 false (fun _ => none) "2025-01-02T00:00:00Z"
      pendingLeadRow).row.sendStatus = "SENT" ∧
    (sender_step "REAL" false 2 false (fun _ => none) "2025-01-02T00:00:00Z"
      pendingLeadRow).sent = true :=
  C10_pending_skip "DRYRUN" false 2 false (fun _ => none) "2025-01-02T00:00:00Z"
    pendingLeadRow (by decide) (Or.inl rfl)

/-- C4. The daily planner removes a record from the active store (moving it
to the Lost collection) only when both the followup count has reached
MAX_FOLLOWUPS and at least the three-day archive cooldown has elapsed since
the last send; in particular the concrete record with five sends two days
ago is left entirely untouched. -/
theorem C4_archive_guard (mode : String) (today : Int) (now : String) (sendOk : Bool)
    (row : Row)
    (h : (auto_step mode today now sendOk row).removedFromActive = true) :
    pyStrip row.status = "Follow-up" ∧
    pyParseCount row.followupCount ≥ MAX_FOLLOWUPS ∧
    get_days_diff today (pyStrip row.lastSentAt) ≥ 3 ∧
    auto_step "REAL" jan10_2025 "2025-01-10T08:00:00Z" true cooldownRow =
      ⟨cooldownRow, none, false, none, false⟩ := by
  simp only [auto_step] at h
  split at h
  case isTrue hc => exact ⟨hc.1, hc.2.1, hc.2.2, by with_unfolding_all rfl⟩
  case isFalse =>
    exfalso
    repeat' split at h
    all_goals simp_all

/-- C4 witness: a record with five sends nine days ago is removed, and the
guard conditions indeed held for it. -/
theorem C4_witness :
    pyStrip archiveReadyRow.status = "Follow-up" ∧
    pyParseCount archiveReadyRow.followupCount ≥ MAX_FOLLOWUPS ∧
    get_days_diff jan10_2025 (pyStrip archiveReadyRow.lastSentAt) ≥ 3 ∧
    auto_step "REAL" jan10_2025 "2025-01-10T08:00:00Z" true cooldownRow =
      ⟨cooldownRow, none, false, none, false⟩ :=
  C4_archive_guard "REAL" jan10_2025 "2025-01-10T08:00:00Z" true archiveReadyRow
    (by with_unfolding_all rfl)

/-- C5. For a record in CRM status Follow-up with an extractable email and
a followup count between 1 and 4 (so below MAX_FOLLOWUPS and with a wait
table entry and a template for the next stage), the planner selects the
stage count-plus-one template exactly when the days elapsed since the last
send reach WAIT_SCHEDULE at the current count; and in REAL mode with a
successful send it sets last_sent_at to now, the followup count to
count-plus-one, and send_status to SENT_AUTO. -/
theorem C5_followup_cadence (mode : String) (today : Int) (now : String) (sendOk : Bool)
    (row : Row)
    (hs : pyStrip row.status = "Follow-up")
    (he : extract_email (pyStrip row.contactInfo) ≠ "")
    (h1 : 1 ≤ pyParseCount row.followupCount)
    (h4 : pyParseCount row.followupCount ≤ 4) :
    ((auto_step mode today now sendOk row).sendStage =
        some (pyParseCount row.followupCount + 1) ↔
      get_days_diff today (pyStrip row.lastSentAt) ≥
        WAIT_SCHEDULE (pyParseCount row.followupCount)) ∧
    (mode = "REAL" → sendOk = true →
      get_days_diff today (pyStrip row.lastSentAt) ≥
        WAIT_SCHEDULE (pyParseCount row.followupCount) →
      (auto_step mode today now sendOk row).row =
        { row with lastSentAt := now,
                   followupCount := pyIntToStr (pyParseCount row.followupCount + 1),
                   sendStatus := "SENT_AUTO" }) := by
  have hng : ¬(pyStrip row.status = "Follow-up" ∧
      pyParseCount row.followupCount ≥ MAX_FOLLOWUPS ∧
      get_days_diff today (pyStrip row.lastSentAt) ≥ 3) := by
    rintro ⟨-, hge, -⟩
    unfold MAX_FOLLOWUPS at hge
    omega
  have hg2 : pyStrip row.status = "Follow-up" ∧
      extract_email (pyStrip row.contactInfo) ≠ "" ∧
      pyParseCount row.followupCount < MAX_FOLLOWUPS :=
    ⟨hs, he, by unfold MAX_FOLLOWUPS; omega⟩
  obtain ⟨t, ht⟩ : ∃ t, TEMPLATES (pyParseCount row.followupCount + 1) = some t := by
    have h1' := h1
    have h4' := h4
    set c := pyParseCount row.followupCount with hc
    interval_cases c <;> exact ⟨_, rfl⟩
  simp only [auto_step]
  rw [if_neg hng, if_pos hg2]
  by_cases hd : get_days_diff today (pyStrip row.lastSentAt) ≥
      WAIT_SCHEDULE (pyParseCount row.followupCount)
  · rw [if_pos hd, ht]
    constructor
    · constructor
      · intro _
        exact hd
      · intro _
        repeat' split
        all_goals simp_all
    · intro hm hok _
      subst hm
      rw [if_pos rfl, hok]
      rfl
  · rw [if_neg hd]
    constructor
    · simp [hd]
    · intro _ _ hdd
      exact absurd hdd hd

/-- C5 witness: the record with two sends six days ago gets the stage-3
template and its count becomes 3. -/
theorem C5_witness :
    (auto_step "REAL" jan10_2025 "2025-01-10T08:00:00Z" true cadenceRow).sendStage =
      some 3 ∧
    (auto_step "REAL" jan10_2025 "2025-01-10T08:00:00Z" true cadenceRow).row.followupCount =
      "3" ∧
    (auto_step "REAL" jan10_2025 "2025-01-10T08:00:00Z" true cadenceRow).row.sendStatus =
      "SENT_AUTO" := by
  have h := C5_followup_cadence "REAL" jan10_2025 "2025-01-10T08:00:00Z" true cadenceRow
    (by decide) (by decide) (by decide) (by decide)
  have hd : get_days_diff jan10_2025 (pyStrip cadenceRow.lastSentAt) ≥
      WAIT_SCHEDULE (pyParseCount cadenceRow.followupCount) :=
    of_decide_eq_true (by with_unfolding_all rfl)
  have hrow := h.2 rfl rfl hd
  refine ⟨?_, ?_, ?_⟩
  · exact (h.1.mpr hd).trans (by with_unfolding_all rfl)
  · rw [hrow]
    with_unfolding_all rfl
  · rw [hrow]

/-- Helper: the repaired counter values are well formed. -/
theorem looksCorrupt_one : looksCorrupt "1" = false := by decide

/-- Helper: the repaired counter values are well formed. -/
theorem looksCorrupt_zero : looksCorrupt "0" = false := by decide

/-- Helper: the counter repair touches only the followup count cell. -/
theorem fixCount_frame (r : Row) :
    (fixCount r).contactInfo = r.contactInfo ∧ (fixCount r).sendStatus = r.sendStatus ∧
    (fixCount r).sendMode = r.sendMode ∧ (fixCount r).lastError = r.lastError ∧
    (fixCount r).draftEmail = r.draftEmail ∧ (fixCount r).description = r.description ∧
    (fixCount r).jobTitle = r.jobTitle := by
  unfold fixCount
  split
  all_goals exact ⟨rfl, rfl, rfl, rfl, rfl, rfl, rfl⟩

/-- Helper: the stuck-state reset touches only the send tracking cells. -/
theorem resetStuck_frame (r : Row) :
    (resetStuck r).contactInfo = r.contactInfo ∧
    (resetStuck r).followupCount = r.followupCount ∧
    (resetStuck r).draftEmail = r.draftEmail ∧
    (resetStuck r).description = r.description ∧
    (resetStuck r).jobTitle = r.jobTitle := by
  unfold resetStuck
  repeat' split
  all_goals exact ⟨rfl, rfl, rfl, rfl, rfl⟩

/-- Helper: the enrichment touches only the draft and subject cells. -/
theorem enrich_frame (ai : AIOracle) (r : Row) :
    (enrich ai r).contactInfo = r.contactInfo ∧
    (enrich ai r).followupCount = r.followupCount ∧
    (enrich ai r).sendStatus = r.sendStatus ∧
    (enrich ai r).sendMode = r.sendMode ∧
    (enrich ai r).lastError = r.lastError ∧
    (enrich ai r).description = r.description := by
  unfold enrich
  repeat' split
  all_goals exact ⟨rfl, rfl, rfl, rfl, rfl, rfl⟩

/-- Helper: a counter the repair has passed over is well formed. -/
theorem looksCorrupt_fixCount (r : Row) :
    looksCorrupt (fixCount r).followupCount = false := by
  unfold fixCount
  split
  · split
    · exact looksCorrupt_one
    · exact looksCorrupt_zero
  · next h => simp_all

/-- Helper: a well-formed counter is left alone. -/
theorem fixCount_of_ok (r : Row) (h : looksCorrupt r.followupCount = false) :
    fixCount r = r := by
  unfold fixCount
  rw [h]
  simp

/-- Helper: a protected send status is left alone by the reset. -/
theorem resetStuck_protected (r : Row)
    (h : r.sendStatus = "SENT" ∨ r.sendStatus = "MANUAL_CHECK" ∨ r.sendStatus = "SKIPPED") :
    resetStuck r = r := by
  unfold resetStuck
  rw [if_pos h]

/-- Helper: a record with no leftover send fields is left alone by the
reset. -/
theorem resetStuck_of_blank (r : Row)
    (h : ¬(r.sendMode ≠ "" ∨ r.lastError ≠ "" ∨ r.sendStatus ≠ "")) :
    resetStuck r = r := by
  unfold resetStuck
  repeat' split
  all_goals rfl

/-- Helper: after a reset the record is protected or blank. -/
theorem resetStuck_good (r : Row) :
    ((resetStuck r).sendStatus = "SENT" ∨ (resetStuck r).sendStatus = "MANUAL_CHECK" ∨
      (resetStuck r).sendStatus = "SKIPPED") ∨
    ¬((resetStuck r).sendMode ≠ "" ∨ (resetStuck r).lastError ≠ "" ∨
      (resetStuck r).sendStatus ≠ "") := by
  unfold resetStuck
  repeat' split
  all_goals simp_all

/-- Helper: the reset is idempotent. -/
theorem resetStuck_resetStuck (r : Row) :
    resetStuck (resetStuck r) = resetStuck r := by
  rcases resetStuck_good r with h | h
  · exact resetStuck_protected _ h
  · exact resetStuck_of_blank _ h

/-- Helper: a record whose draft cannot be backfilled is left alone by the
enrichment. -/
theorem enrich_no (ai : AIOracle) (r : Row)
    (h : (decide (r.draftEmail = "") && decide (r.description.length > 20)) = false) :
    enrich ai r = r := by
  unfold enrich
  rw [h]
  simp

/-- Helper: value of the enrichment when the oracle succeeds. -/
theorem enrich_some (ai : AIOracle) (r : Row) (nd : String)
    (hc : (decide (r.draftEmail = "") && decide (r.description.length > 20)) = true)
    (hai : ai r.description r.jobTitle = some nd) :
    enrich ai r =
      { r with draftEmail := nd,
               emailSubject := "Quick question about your " ++ r.jobTitle ++ " role" } := by
  unfold enrich
  rw [hc, if_pos rfl, hai]

/-- Helper: the enrichment is idempotent for a fixed oracle. -/
theorem enrich_enrich (ai : AIOracle) (r : Row) :
    enrich ai (enrich ai r) = enrich ai r := by
  by_cases hc : (decide (r.draftEmail = "") && decide (r.description.length > 20)) = true
  · rcases hai : ai r.description r.jobTitle with _ | nd
    · have h1 : enrich ai r = r := by
        unfold enrich
        rw [hc, if_pos rfl, hai]
      rw [h1, h1]
    · have h1 := enrich_some ai r nd hc hai
      rw [h1]
      by_cases hnd : nd = ""
      · subst hnd
        refine (enrich_some ai _ "" ?_ ?_).trans rfl
        · simp_all
        · exact hai
      · apply enrich_no
        simp [hnd]
  · have h := enrich_no ai r (by simpa using hc)
    rw [h, h]

/-- Helper: the per-row repair pipeline never touches the contact cell. -/
theorem repairRow_contact (ai : AIOracle) (r : Row) :
    (repairRow ai r).contactInfo = r.contactInfo := by
  unfold repairRow
  rw [(enrich_frame ai _).1, (resetStuck_frame _).1, (fixCount_frame r).1]

/-- Helper: the deletion criterion is invariant under the repair pipeline. -/
theorem shouldDelete_repairRow (ai : AIOracle) (r : Row) :
    shouldDelete (repairRow ai r) = shouldDelete r := by
  unfold shouldDelete
  rw [repairRow_contact]

/-- Helper: the repaired counter of a processed row is well formed. -/
theorem looksCorrupt_repairRow (ai : AIOracle) (r : Row) :
    looksCorrupt (repairRow ai r).followupCount = false := by
  unfold repairRow
  rw [(enrich_frame ai _).2.1, (resetStuck_frame _).2.1]
  exact looksCorrupt_fixCount r

/-- Helper: a processed row passes the reset unchanged. -/
theorem resetStuck_repairRow (ai : AIOracle) (r : Row) :
    resetStuck (repairRow ai r) = repairRow ai r := by
  unfold repairRow
  rcases resetStuck_good (fixCount r) with h | h
  · apply resetStuck_protected
    rw [(enrich_frame ai _).2.2.1]
    exact h
  · apply resetStuck_of_blank
    rw [(enrich_frame ai _).2.2.2.1, (enrich_frame ai _).2.2.2.2.1, (enrich_frame ai _).2.2.1]
    exact h

/-- Helper: the per-row repair pipeline is idempotent for a fixed oracle. -/
theorem repairRow_idem (ai : AIOracle) (r : Row) :
    repairRow ai (repairRow ai r) = repairRow ai r := by
  calc repairRow ai (repairRow ai r)
      = enrich ai (resetStuck (fixCount (repairRow ai r))) := rfl
    _ = enrich ai (resetStuck (repairRow ai r)) := by
        rw [fixCount_of_ok _ (looksCorrupt_repairRow ai r)]
    _ = enrich ai (repairRow ai r) := by rw [resetStuck_repairRow]
    _ = enrich ai (enrich ai (resetStuck (fixCount r))) := rfl
    _ = enrich ai (resetStuck (fixCount r)) := enrich_enrich ai _
    _ = repairRow ai r := rfl

/-- C3. The claim states that a record with send_status in SENT,
MANUAL_CHECK or SKIPPED is left entirely unchanged, field for field and
including the Followup Count, by one run of the repair pass.  The
counter-repair phase does not look at the send status: a SENT record whose
followup counter is corrupted is rewritten by the pass. -/
theorem C3_counterexample :
    corruptSentRow.sendStatus = "SENT" ∧
    clean_and_enrich_db (fun _ _ => none) [corruptSentRow] ≠ [corruptSentRow] := by
  exact ⟨rfl, by decide⟩

/-- C3 (amended): a protected record (send status SENT, MANUAL_CHECK or
SKIPPED) is never altered by the stuck-status reset; and when in addition
its contact is usable (not deleted), its followup counter is well formed
(not rewritten) and its draft needs no backfill, the whole pass preserves
the record field for field, in place, without deleting its row. -/
theorem C3_protected_frame (ai : AIOracle) (row : Row) (pre post : List Row)
    (hp : row.sendStatus = "SENT" ∨ row.sendStatus = "MANUAL_CHECK" ∨
      row.sendStatus = "SKIPPED")
    (hdel : shouldDelete row = false)
    (hcnt : looksCorrupt row.followupCount = false)
    (hdr : ¬(row.draftEmail = "" ∧ row.description.length > 20)) :
    resetStuck row = row ∧
    repairRow ai row = row ∧
    clean_and_enrich_db ai (pre ++ row :: post) =
      clean_and_enrich_db ai pre ++ row :: clean_and_enrich_db ai post := by
  have hreset : resetStuck row = row := resetStuck_protected row hp
  have hrep : repairRow ai row = row := by
    unfold repairRow
    rw [fixCount_of_ok row hcnt, hreset]
    apply enrich_no
    by_cases h1 : row.draftEmail = "" <;> by_cases h2 : row.description.length > 20 <;>
      simp_all
  refine ⟨hreset, hrep, ?_⟩
  unfold clean_and_enrich_db
  rw [List.filter_append, List.map_append, List.filter_cons]
  simp [hdel, hrep]

/-- C3 witness: a healthy SENT record sits untouched inside a singleton
store. -/
theorem C3_witness :
    resetStuck healthySentRow = healthySentRow ∧
    repairRow (fun _ _ => none) healthySentRow = healthySentRow ∧
    clean_and_enrich_db (fun _ _ => none) ([] ++ healthySentRow :: []) =
      clean_and_enrich_db (fun _ _ => none) [] ++ healthySentRow ::
        clean_and_enrich_db (fun _ _ => none) [] :=
  C3_protected_frame (fun _ _ => none) healthySentRow [] []
    (Or.inl rfl) (by decide) (by decide) (by decide)

/-- C9. The repair pass is idempotent: for every store state (and a fixed,
deterministic drafting oracle) running clean_and_enrich_db twice yields
the same store as running it once; the second run deletes nothing,
repairs no counter, resets no status and backfills no draft. -/
theorem C9_repair_idempotent (ai : AIOracle) (store : List Row) :
    clean_and_enrich_db ai (clean_and_enrich_db ai store) =
      clean_and_enrich_db ai store := by
  induction store with
  | nil => rfl
  | cons r rest ih =>
    by_cases hdel : shouldDelete r = true
    · simp only [clean_and_enrich_db, List.filter_cons, hdel] at ih ⊢
      simpa using ih
    · have hdel' : shouldDelete r = false := by simp_all
      simp only [clean_and_enrich_db, List.filter_cons, hdel', Bool.not_false,
        if_pos, List.map_cons, shouldDelete_repairRow, repairRow_idem] at ih ⊢
      simpa [shouldDelete_repairRow, hdel', repairRow_idem] using ih

/-- Helper: the outreach scheduler never writes the followup count. -/
theorem sender_step_count (mode : String) (verifyOnly : Bool) (maxRetries : Nat)
    (limitReached : Bool) (transport : Nat → Option String) (now : String) (row : Row) :
    (sender_step mode verifyOnly maxRetries limitReached transport now row).row.followupCount =
      row.followupCount := by
  simp only [sender_step]
  repeat' split
  all_goals rfl

/-- Helper: the persisted row of a scheduler pass keeps the followup count. -/
theorem sender_persist_count (mode : String) (verifyOnly : Bool) (maxRetries : Nat)
    (limitReached : Bool) (transport : Nat → Option String) (now : String) (row : Row) :
    (sender_persist mode verifyOnly maxRetries limitReached transport now row).followupCount =
      row.followupCount := by
  simp only [sender_persist]
  split
  · exact sender_step_count mode verifyOnly maxRetries limitReached transport now row
  · rfl

/-- Helper: a planner pass either leaves the active row alone or, on a
successful send of an existing template, advances it to the next stage. -/
theorem auto_step_row_cases (mode : String) (today : Int) (now : String) (sendOk : Bool)
    (row : Row) :
    (auto_step mode today now sendOk row).row = row ∨
    (∃ t, TEMPLATES (pyParseCount row.followupCount + 1) = some t ∧
      (auto_step mode today now sendOk row).didSend = true ∧
      (auto_step mode today now sendOk row).row =
        { row with lastSentAt := now,
                   followupCount := pyIntToStr (pyParseCount row.followupCount + 1),
                   sendStatus := "SENT_AUTO" }) := by
  simp only [auto_step]
  repeat' split
  all_goals simp_all

/-- Helper: one planner pass never decreases the followup count, and
changes it only on a successful send. -/
theorem auto_step_count_mono (mode : String) (today : Int) (now : String) (sendOk : Bool)
    (row : Row) :
    pyParseCount row.followupCount ≤
      pyParseCount (auto_step mode today now sendOk row).row.followupCount ∧
    ((auto_step mode today now sendOk row).row.followupCount ≠ row.followupCount →
      (auto_step mode today now sendOk row).didSend = true) := by
  rcases auto_step_row_cases mode today now sendOk row with h | ⟨t, heq, hsent, h⟩
  · rw [h]
    exact ⟨le_refl _, fun hne => absurd rfl hne⟩
  · have hst : pyParseCount row.followupCount + 1 = 2 ∨
        pyParseCount row.followupCount + 1 = 3 ∨
        pyParseCount row.followupCount + 1 = 4 ∨
        pyParseCount row.followupCount + 1 = 5 := by
      unfold TEMPLATES at heq
      repeat' split at heq
      all_goals first | omega | simp_all
    have hrt : pyParseCount (pyIntToStr (pyParseCount row.followupCount + 1)) =
        pyParseCount row.followupCount + 1 := by
      rcases hst with h' | h' | h' | h' <;> rw [h'] <;> decide
    rw [h]
    constructor
    · show pyParseCount row.followupCount ≤
        pyParseCount (pyIntToStr (pyParseCount row.followupCount + 1))
      rw [hrt]
      omega
    · intro _
      exact hsent

/-- C8. Across any sequence of scheduler and planner passes on a record,
the followup count (as the engine parses it) never decreases; and a single
pass changes the stored counter only when it performed a successful send. -/
theorem C8_count_monotone (ops : List EngineOp) (row : Row) (op : EngineOp) :
    pyParseCount row.followupCount ≤ pyParseCount (applyOps ops row).followupCount ∧
    ((applyOp op row).followupCount ≠ row.followupCount → opDidSend op row = true) := by
  constructor
  · induction ops generalizing row with
    | nil => exact le_refl _
    | cons o rest ih =>
      refine le_trans ?_ (ih (applyOp o row))
      cases o with
      | sender m vo mr lim tr now =>
        show pyParseCount row.followupCount ≤
          pyParseCount (sender_persist m vo mr lim tr now row).followupCount
        rw [sender_persist_count]
      | planner m today now ok =>
        exact (auto_step_count_mono m today now ok row).1
  · cases op with
    | sender m vo mr lim tr now =>
      exact fun hne => (hne (sender_persist_count m vo mr lim tr now row)).elim
    | planner m today now ok =>
      exact (auto_step_count_mono m today now ok row).2

/-- C8 witness: one successful REAL planner pass on a stage-2 record. -/
theorem C8_witness :
    pyParseCount monotoneRow.followupCount ≤
      pyParseCount (applyOps [monotoneOp] monotoneRow).followupCount ∧
    opDidSend monotoneOp monotoneRow = true :=
  ⟨(C8_count_monotone [monotoneOp] monotoneRow monotoneOp).1,
   (C8_count_monotone [monotoneOp] monotoneRow monotoneOp).2
     (of_decide_eq_true (by with_unfolding_all rfl))⟩
